import Mathlib

/-!
Shallow embedding of the conversational orchestration core of the
`practice_deepseek` repository (`app/utils/json_db.py`,
`app/services/chat_service.py`, `app/services/history_manager.py`),
together with theorems settling the frozen claims about it.

Modelling conventions:
* JSON values are the inductive `JVal` (numbers as rationals; Python
  ints and floats are collapsed into `JVal.num`).
* A Python dict is an insertion-ordered association list
  `List (String × JVal)` with unique keys maintained by `dictSet`.
* Python code that can raise an exception is embedded in
  `Except String`, the error string naming the Python exception.
* The two upstream completion calls (`_chat` and the summarization
  completion) are opaque oracles passed as function parameters:
  `none` models the call raising, `some c` models a successful
  completion returning content `c`.
-/

namespace Spec2Proof

/- The Batteries rational-number operations are sealed against
unfolding; re-open them so that concrete arithmetic over stored
order data reduces inside `decide`/`rfl` proofs. -/
set_option allowUnsafeReducibility true
attribute [local semireducible] Rat.mul Rat.add Rat.div Rat.sub Rat.inv Rat.ofScientific

/-- JSON-shaped runtime values (the payloads TinyDB stores and the tool
layer passes around). -/
inductive JVal where
  | null : JVal
  | bool : Bool → JVal
  | num : ℚ → JVal
  | str : String → JVal
  | arr : List JVal → JVal
  | obj : List (String × JVal) → JVal

mutual

/-- Structural equality of JSON values, modelling Python `==` on the
JSON-shaped data this program stores.  (Python's `True == 1` is not
modelled: the program never compares booleans with numbers.) -/
def JVal.beq : JVal → JVal → Bool
  | .null, .null => true
  | .bool a, .bool b => a == b
  | .num a, .num b => a == b
  | .str a, .str b => a == b
  | .arr xs, .arr ys => JVal.beqList xs ys
  | .obj xs, .obj ys => JVal.beqObj xs ys
  | _, _ => false

/-- Elementwise equality of JSON arrays. -/
def JVal.beqList : List JVal → List JVal → Bool
  | [], [] => true
  | x :: xs, y :: ys => JVal.beq x y && JVal.beqList xs ys
  | _, _ => false

/-- Bindingwise equality of JSON objects (insertion order significant,
matching the association-list representation used here). -/
def JVal.beqObj : List (String × JVal) → List (String × JVal) → Bool
  | [], [] => true
  | (k, v) :: xs, (k', v') :: ys => k == k' && JVal.beq v v' && JVal.beqObj xs ys
  | _, _ => false

end

instance : BEq JVal := ⟨JVal.beq⟩

/-- An order record / TinyDB document: an insertion-ordered dict. -/
abbrev Order := List (String × JVal)

/-- Dict lookup (`d[k]` / `d.get(k)`): first binding of the key. -/
def jget (o : Order) (k : String) : Option JVal :=
  (o.find? (fun p => p.1 == k)).map (fun p => p.2)

/-- Python `k in d`. -/
def hasKey (o : Order) (k : String) : Bool :=
  o.any (fun p => p.1 == k)

/-- Python `d[k] = v`: replace the binding if the key is present,
append it otherwise (insertion order preserved). -/
def dictSet (o : Order) (k : String) (v : JVal) : Order :=
  if hasKey o k then o.map (fun p => if p.1 == k then (k, v) else p)
  else o ++ [(k, v)]

/-- Python `d.update(u)` / TinyDB's merging document update. -/
def dictMerge (o : Order) (updates : List (String × JVal)) : Order :=
  updates.foldl (fun acc p => dictSet acc p.1 p.2) o

/-- A tool-call descriptor as the SDK delivers it
(`tc.id`, `tc.function.name`, `tc.function.arguments`); the nesting
under `.function` is flattened since the code only reads these three
fields. -/
structure ToolCall where
  id : String
  name : String
  arguments : String
deriving DecidableEq, Repr

/-- A history message: the plain dict the services store.  Optional
fields model optional dict keys; `summary_of` stands for
`meta["summary_of"]` (the code only ever writes `meta` as
`{"summary_of": span}` and only reads `meta.get("summary_of")`, so an
absent `meta`, an empty `meta` and `summary_of = None` — all falsy on
the read side — collapse to `none`). -/
inductive Message where
  | mk : (role : String) → (content : Option String) →
      (tool_calls : Option (List ToolCall)) →
      (tool_call_id : Option String) → (name : Option String) →
      (summary_of : Option (List Message)) → Message

/-- Role of a message. -/
def Message.role : Message → String
  | .mk r _ _ _ _ _ => r

/-- Content of a message. -/
def Message.content : Message → Option String
  | .mk _ c _ _ _ _ => c

/-- Recorded tool calls of a message (`msg.get("tool_calls")`). -/
def Message.tool_calls : Message → Option (List ToolCall)
  | .mk _ _ t _ _ _ => t

/-- Field `meta.summary_of` of a message. -/
def Message.summary_of : Message → Option (List Message)
  | .mk _ _ _ _ _ s => s

/-! ## `app/utils/json_db.py` — the Order Store

TinyDB's `orders_table` is a `List Order` in insertion order; every
mutating helper returns the new table (the durability flush has no
observable effect on the data model and is not represented). -/

/-- The query `where("order_id") == order_id` applied to one document: TinyDB
resolves the field path (a missing field makes the query false, the
`KeyError` being caught inside TinyDB) and compares with Python `==`. -/
def matchesId (idv : JVal) (o : Order) : Bool :=
  match jget o "order_id" with
  | none => false
  | some x => JVal.beq x idv

/-- Model of `json_db.get_order`: first document whose `order_id` equals the
argument, if any. -/
def get_order (store : List Order) (idv : JVal) : Option Order :=
  store.find? (matchesId idv)

/-- Model of `json_db.create_order`: `setdefault("order_id", uuid)` then insert
unconditionally.  The freshly generated UUID is a parameter. -/
def create_order (uuid : String) (store : List Order) (order_data : Order) :
    Order × List Order :=
  let d := if hasKey order_data "order_id" then order_data
           else order_data ++ [("order_id", .str uuid)]
  (d, store ++ [d])

/-- Model of `json_db.update_order`: if no document matches, return `none` and
leave the table unchanged; otherwise merge the updates into every
matching document and return `get_order` of the new table. -/
def update_order (store : List Order) (idv : JVal) (updates : List (String × JVal)) :
    Option Order × List Order :=
  if store.any (matchesId idv) then
    let store' := store.map (fun o => if matchesId idv o then dictMerge o updates else o)
    (get_order store' idv, store')
  else (none, store)

/-- Model of `json_db.delete_order`: remove every matching document; report
whether any was removed. -/
def delete_order (store : List Order) (idv : JVal) : Bool × List Order :=
  (store.any (matchesId idv), store.filter (fun o => !matchesId idv o))

/-- Numeric view used by Python comparisons and arithmetic
(`bool` is an `int` subtype in Python). -/
def JVal.toNum : JVal → Option ℚ
  | .num q => some q
  | .bool b => some (if b then 1 else 0)
  | _ => none

/-- Python `a > b` on stored JSON values.  Numbers (and booleans, which
are numbers) compare numerically, strings compare lexicographically by
code point; any other combination raises `TypeError`.  (Python's
elementwise list-list comparison is not modelled: no order field holds
nested lists that get compared.) -/
def pyGT (a b : JVal) : Except String Bool :=
  match a.toNum, b.toNum with
  | some x, some y => .ok (decide (y < x))
  | _, _ =>
    match a, b with
    | .str x, .str y => .ok (decide (y < x))
    | _, _ => .error "TypeError"

/-- Python `a < b`, same conventions as `pyGT`. -/
def pyLT (a b : JVal) : Except String Bool :=
  match a.toNum, b.toNum with
  | some x, some y => .ok (decide (x < y))
  | _, _ =>
    match a, b with
    | .str x, .str y => .ok (decide (x < y))
    | _, _ => .error "TypeError"

/-- Case-insensitive substring containment — the effect of TinyDB's
`where(field).search(str(val), flags=re.I)` for the metacharacter-free
patterns this tool receives (TinyDB returns `False` for non-string
field values without raising). -/
def strContainsSub (hay needle : String) : Bool :=
  (List.range (hay.length + 1)).any
    (fun i => needle.toLower.data.isPrefixOf (hay.toLower.data.drop i))

/-- One search filter `{field, op, value}` (the dispatcher hands the
dict's three entries over positionally). -/
structure Filter where
  field : String
  op : String
  value : JVal

/-- The query built by `_build_query` for one filter, applied to one
document.  TinyDB's path resolution makes a missing field non-matching
for every operator; the `>`/`<` test lambda first checks
`x is not None`, then evaluates the Python comparison, whose
`TypeError` propagates out of the search. -/
def matchFilter (o : Order) (f : Filter) : Except String Bool :=
  match f.op with
  | "==" =>
    match jget o f.field with
    | none => .ok false
    | some x => .ok (JVal.beq x f.value)
  | "!=" =>
    match jget o f.field with
    | none => .ok false
    | some x => .ok (!JVal.beq x f.value)
  | ">" =>
    match jget o f.field with
    | none => .ok false
    | some .null => .ok false
    | some x => pyGT x f.value
  | "<" =>
    match jget o f.field with
    | none => .ok false
    | some .null => .ok false
    | some x => pyLT x f.value
  | "~" =>
    match jget o f.field with
    | some (.str s) =>
      match f.value with
      | .str v => .ok (strContainsSub s v)
      | _ => .ok false
    | _ => .ok false
  | _ => .error "ValueError"

/-- Conjunction of the filter clauses on one document (`&` on TinyDB
queries short-circuits like Python `and`). -/
def evalFilters (o : Order) : List Filter → Except String Bool
  | [] => .ok true
  | f :: fs => do
    let b ← matchFilter o f
    if b then evalFilters o fs else pure false

/-- Model of `orders_table.search(query)`: test the documents in order,
an exception from any test aborting the whole search. -/
def searchGo (filters : List Filter) : List Order → Except String (List Order)
  | [] => .ok []
  | o :: os => do
    let b ← evalFilters o filters
    let rest ← searchGo filters os
    pure (if b then o :: rest else rest)

/-- Model of `json_db.search_orders`: empty filter list returns the whole table;
otherwise the queries are built first (an unsupported op raises
`ValueError` before any document is examined), then ANDed over the
table. -/
def search_orders (store : List Order) (filters : List Filter) :
    Except String (List Order) :=
  if filters.isEmpty then .ok store
  else if filters.any (fun f => !(["==", "!=", ">", "<", "~"].contains f.op)) then
    .error "ValueError"
  else searchGo filters store

/-! ## `json.loads` / `json.dumps`

The dispatcher receives tool arguments as a raw JSON text and decodes
it with `json.loads`; results are re-encoded with `json.dumps`.  Both
are embedded directly: a recursive-descent parser (driven by a fuel
counter amply larger than the nesting depth of any real input) and a
straightforward serializer.  `\uXXXX` escapes and exponent-notation
numbers are not modelled (no tool payload in the claims uses them);
an input the parser rejects is exactly one on which `json.loads`
raises `json.JSONDecodeError`. -/

/-- Leading JSON whitespace removal. -/
def skipWs : List Char → List Char
  | c :: cs => if c = ' ' ∨ c = '\t' ∨ c = '\n' ∨ c = '\r' then skipWs cs else c :: cs
  | [] => []

/-- Body of a JSON string (the opening quote already consumed):
returns the decoded characters and the rest of the input. -/
def parseStringBody : List Char → Except String (List Char × List Char)
  | [] => .error "JSONDecodeError"
  | '"' :: cs => .ok ([], cs)
  | '\\' :: e :: cs => do
    let d ←
      match e with
      | '"' => .ok '"'
      | '\\' => .ok '\\'
      | '/' => .ok '/'
      | 'n' => .ok '\n'
      | 't' => .ok '\t'
      | 'r' => .ok '\r'
      | _ => .error "JSONDecodeError"
    let (rest, cs') ← parseStringBody cs
    .ok (d :: rest, cs')
  | c :: cs => do
    let (rest, cs') ← parseStringBody cs
    .ok (c :: rest, cs')

/-- Longest leading run of decimal digits. -/
def takeDigits : List Char → List Char × List Char
  | c :: cs =>
    if c.isDigit then
      let (ds, rest) := takeDigits cs
      (c :: ds, rest)
    else ([], c :: cs)
  | [] => ([], [])

/-- Decimal digits to a natural number. -/
def digitsToNat (ds : List Char) : Nat :=
  ds.foldl (fun acc c => 10 * acc + (c.toNat - '0'.toNat)) 0

/-- A JSON number: optional minus, integer part, optional fraction. -/
def parseNumber (cs : List Char) : Except String (ℚ × List Char) :=
  let (neg, cs₁) := match cs with
    | '-' :: rest => (true, rest)
    | _ => (false, cs)
  let (intDs, cs₂) := takeDigits cs₁
  if intDs.isEmpty then .error "JSONDecodeError"
  else
    let ipart : ℚ := (digitsToNat intDs : ℚ)
    let (q, cs₃) : ℚ × List Char :=
      match cs₂ with
      | '.' :: rest =>
        let (fracDs, rest') := takeDigits rest
        (ipart + (digitsToNat fracDs : ℚ) / ((10 : ℚ) ^ fracDs.length), rest')
      | _ => (ipart, cs₂)
    match cs₃ with
    | '.' :: _ => .error "JSONDecodeError"
    | _ => .ok (if neg then -q else q, cs₃)

mutual

/-- One JSON value. -/
def parseVal : Nat → List Char → Except String (JVal × List Char)
  | 0, _ => .error "JSONDecodeError"
  | fuel + 1, cs =>
    match skipWs cs with
    | '"' :: rest => do
      let (s, rest') ← parseStringBody rest
      .ok (.str (String.mk s), rest')
    | '[' :: rest =>
      (fun r => (JVal.arr r.1, r.2)) <$> parseArrItems fuel (skipWs rest)
    | '{' :: rest =>
      (fun r => (JVal.obj r.1, r.2)) <$> parseObjItems fuel (skipWs rest)
    | 'n' :: 'u' :: 'l' :: 'l' :: rest => .ok (.null, rest)
    | 't' :: 'r' :: 'u' :: 'e' :: rest => .ok (.bool true, rest)
    | 'f' :: 'a' :: 'l' :: 's' :: 'e' :: rest => .ok (.bool false, rest)
    | c :: rest =>
      if c.isDigit ∨ c = '-' then
        (fun r => (JVal.num r.1, r.2)) <$> parseNumber (c :: rest)
      else .error "JSONDecodeError"
    | [] => .error "JSONDecodeError"

/-- Items of a JSON array, the opening bracket already consumed and
leading whitespace stripped. -/
def parseArrItems : Nat → List Char → Except String (List JVal × List Char)
  | 0, _ => .error "JSONDecodeError"
  | _ + 1, ']' :: rest => .ok ([], rest)
  | fuel + 1, cs => do
    let (v, cs₁) ← parseVal fuel cs
    match skipWs cs₁ with
    | ',' :: cs₂ => do
      let (vs, cs₃) ← parseArrItems fuel (skipWs cs₂)
      match vs, skipWs cs₂ with
      | [], ']' :: _ => .error "JSONDecodeError"
      | _, _ => .ok (v :: vs, cs₃)
    | ']' :: cs₂ => .ok ([v], cs₂)
    | _ => .error "JSONDecodeError"

/-- Members of a JSON object, the opening brace already consumed and
leading whitespace stripped. -/
def parseObjItems : Nat → List Char → Except String (List (String × JVal) × List Char)
  | 0, _ => .error "JSONDecodeError"
  | _ + 1, '\x7d' :: rest => .ok ([], rest)
  | fuel + 1, cs => do
    match cs with
    | '"' :: cs₀ => do
      let (k, cs₁) ← parseStringBody cs₀
      match skipWs cs₁ with
      | ':' :: cs₂ => do
        let (v, cs₃) ← parseVal fuel cs₂
        match skipWs cs₃ with
        | ',' :: cs₄ => do
          let (kvs, cs₅) ← parseObjItems fuel (skipWs cs₄)
          match kvs with
          | [] => .error "JSONDecodeError"
          | _ => .ok ((String.mk k, v) :: kvs, cs₅)
        | '\x7d' :: cs₄ => .ok ([(String.mk k, v)], cs₄)
        | _ => .error "JSONDecodeError"
      | _ => .error "JSONDecodeError"
    | _ => .error "JSONDecodeError"

end

/-- Model of `json.loads`: parse one JSON document; trailing non-whitespace is
an error ("Extra data"), exactly as in Python. -/
def json_loads (s : String) : Except String JVal := do
  let (v, rest) ← parseVal (s.length + 16) s.data
  match skipWs rest with
  | [] => .ok v
  | _ => .error "JSONDecodeError"

/-- Decimal rendering of the rationals that reach `json.dumps` here
(whole numbers in every claim; a non-integral value falls back to a
fraction rendering, a divergence from CPython's float `repr` that no
claim observes since dumped text is only fed back to the model). -/
def numRepr (q : ℚ) : String :=
  if q.den = 1 then toString q.num
  else toString q.num ++ "/" ++ toString q.den

/-- JSON string escaping (quotes and backslashes; no claim dumps
control characters). -/
def escapeString (s : String) : String :=
  String.mk (s.data.flatMap (fun c =>
    if c = '"' then ['\\', '"']
    else if c = '\\' then ['\\', '\\']
    else [c]))

mutual

/-- Model of `json.dumps` with CPython's default separators. -/
def json_dumps : JVal → String
  | .null => "null"
  | .bool b => if b then "true" else "false"
  | .num q => numRepr q
  | .str s => "\"" ++ escapeString s ++ "\""
  | .arr xs => "[" ++ dumpsList xs ++ "]"
  | .obj kvs => "\x7b" ++ dumpsObj kvs ++ "\x7d"

/-- Comma-joined array elements. -/
def dumpsList : List JVal → String
  | [] => ""
  | [x] => json_dumps x
  | x :: xs => json_dumps x ++ ", " ++ dumpsList xs

/-- Comma-joined object members. -/
def dumpsObj : List (String × JVal) → String
  | [] => ""
  | [(k, v)] => "\"" ++ escapeString k ++ "\": " ++ json_dumps v
  | (k, v) :: kvs => "\"" ++ escapeString k ++ "\": " ++ json_dumps v ++ ", " ++ dumpsObj kvs

end

/-! ## `app/services/chat_service.py` — Tool Dispatcher and Dialogue Engine

The completion endpoint is opaque: the first completion of a turn is an
oracle producing a `Choice` (or `none` when the call raises), the
follow-up completion an oracle producing the follow-up content. -/

/-- The fixed system prompt. -/
def SYSTEM_PROMPT : String :=
  "You are a friendly customer‑support bot for **Acme Corp**.\n• Respond politely and concisely.\n• Call one of the provided functions when you need live data."

/-- The system message `_ensure_system` inserts. -/
def systemMessage : Message :=
  .mk "system" (some SYSTEM_PROMPT) none none none none

/-- Model of `_ensure_system`: insert the system prompt at position 0 unless the
history already starts with a role=system message. -/
def ensure_system (history : List Message) : List Message :=
  match history with
  | [] => [systemMessage]
  | m :: _ => if m.role == "system" then history else systemMessage :: history

/-- Python `args[k]` on a decoded JSON value: `KeyError` when the key
is absent from the dict, `TypeError` when the value is not a dict. -/
def argGet (args : JVal) (k : String) : Except String JVal :=
  match args with
  | .obj kvs =>
    match jget kvs k with
    | some v => .ok v
    | none => .error "KeyError"
  | _ => .error "TypeError"

/-- Python `a * b` on decoded JSON values: numbers (booleans included)
multiply; any other combination raises `TypeError`.  (Python's
string/sequence repetition is not modelled: item lists never put
strings in `qty`/`price` in any claim.) -/
def pyMul (a b : JVal) : Except String JVal :=
  match a.toNum, b.toNum with
  | some x, some y => .ok (.num (x * y))
  | _, _ => .error "TypeError"

/-- The generator sum `sum(i["qty"] * i["price"] for i in items)`, evaluated left to
right, the first failing item aborting the sum. -/
def sumItems : List JVal → Except String ℚ
  | [] => .ok 0
  | i :: is => do
    let q ← argGet i "qty"
    let p ← argGet i "price"
    match pyMul q p with
    | .ok (.num v) => do
      let rest ← sumItems is
      .ok (v + rest)
    | .ok _ => .error "TypeError"
    | .error e => .error e

/-- Decode the `filters` argument of the search tool into `Filter`
records (`f["field"]`, `f["op"]`, `f["value"]`; non-string field or op
fails inside TinyDB's query builder). -/
def toFilters : JVal → Except String (List Filter)
  | .arr xs => xs.mapM (fun x => do
      let fi ← argGet x "field"
      let op ← argGet x "op"
      let v ← argGet x "value"
      match fi, op with
      | .str fi', .str op' => .ok ⟨fi', op', v⟩
      | _, _ => .error "TypeError")
  | _ => .error "TypeError"

/-- Model of `_run_tool`: dispatch one tool call against the Order Store.
`.error` is an exception propagating out of the dispatcher (note the
`raise ValueError("Order not found")` on the `get_order` branch and
the structured `not_found` result on the `update_order_items` branch);
`.ok` carries the result payload and the store after the call. -/
def run_tool (uuid : String) (store : List Order) (name : String) (args : JVal) :
    Except String (JVal × List Order) :=
  if name = "get_order" then do
    let oid ← argGet args "order_id"
    match get_order store oid with
    | none => .error "ValueError: Order not found"
    | some o => .ok (.obj [("order", .obj o)], store)
  else if name = "create_order" then
    match args with
    | .obj kvs =>
      let (d, store') := create_order uuid store kvs
      .ok (.obj d, store')
    | _ => .error "TypeError"
  else if name = "update_order" then do
    let oid ← argGet args "order_id"
    let fields ← argGet args "fields"
    match fields with
    | .obj u =>
      let (res, store') := update_order store oid u
      .ok ((match res with | none => .null | some o => .obj o), store')
    | _ => .error "TypeError"
  else if name = "delete_order" then do
    let oid ← argGet args "order_id"
    let (b, store') := delete_order store oid
    .ok (.obj [("deleted", .bool b)], store')
  else if name = "search_orders" then do
    let fv ← argGet args "filters"
    let filters ← toFilters fv
    match search_orders store filters with
    | .ok rs => .ok (.obj [("results", .arr (rs.map .obj))], store)
    | .error e => .error e
  else if name = "update_order_items" then do
    let oid ← argGet args "order_id"
    match get_order store oid with
    | none => .ok (.obj [("error", .str "not_found")], store)
    | some _ => do
      let items ← argGet args "items"
      match items with
      | .arr xs => do
        let total ← sumItems xs
        let (updated, store') :=
          update_order store oid [("items", .arr xs), ("total_price", .num total)]
        .ok (.obj [("order", match updated with | none => .null | some o => .obj o)], store')
      | _ => .error "TypeError"
  else .error "RuntimeError"

/-- One choice of the first completion, as `_handle` reads it.
`tool_calls = none` models the attribute being absent (so that
`getattr(msg, "tool_calls", [tool_call])` falls back to the default);
the legacy `function_call` descriptor is modelled with an explicit id
(the `"legacy"` placeholder id is not distinguished — no claim
exercises the legacy path). -/
structure Choice where
  finish_reason : String
  content : Option String
  tool_calls : Option (List ToolCall)
  function_call : Option ToolCall

/-- Result of a fully handled turn: the returned reply (the follow-up
completion may return empty content, hence `Option`), the history as
it would be persisted, and the store after any tool call. -/
structure TurnOut where
  reply : Option String
  history : List Message
  store : List Order

/-- Model of `_handle`: text branch appends and returns the content (with the
`"(no content)"` placeholder for falsy content); tool branch records
the raw tool-call descriptors, parses the first call's arguments
(`json.loads` uncaught), dispatches it, appends the role=tool result
message, and asks the follow-up completion for the final text.
`.error` is an exception propagating out of the turn before the
history is persisted. -/
def handle (uuid : String) (followup : List Message → Option (Option String))
    (store : List Order) (choice : Choice) (history : List Message) :
    Except String TurnOut :=
  if !(["function_call", "tool_calls"].contains choice.finish_reason) then
    let assistant : String :=
      match choice.content with
      | none => "(no content)"
      | some s => if s = "" then "(no content)" else s
    .ok ⟨some assistant,
      history ++ [.mk "assistant" (some assistant) none none none none], store⟩
  else
    let tc? : Option ToolCall :=
      match choice.tool_calls with
      | some (tc :: _) => some tc
      | _ => choice.function_call
    match tc? with
    | none => .error "AttributeError"
    | some tool_call =>
      let recorded : List ToolCall :=
        match choice.tool_calls with
        | some tcs => tcs
        | none => [tool_call]
      let hist₁ := history ++
        [.mk "assistant" (some (choice.content.getD "")) (some recorded) none none none]
      match json_loads tool_call.arguments with
      | .error e => .error e
      | .ok args =>
        match run_tool uuid store tool_call.name args with
        | .error e => .error e
        | .ok (result, store') =>
          let hist₂ := hist₁ ++
            [.mk "tool" (some (json_dumps result)) none (some tool_call.id)
              (some tool_call.name) none]
          match followup hist₂ with
          | none => .error "UpstreamError"
          | some c => .ok ⟨c, hist₂ ++ [.mk "assistant" c none none none none], store'⟩

/-- Model of `process_user_message` up to persistence: ensure the system prompt,
append the user message, run the first completion (an upstream failure
raises), and hand the choice to `handle`.  On success the returned
history is exactly what `save_history` persists; background trimming is
scheduled afterwards and does not affect the turn's outcome. -/
def process_user_message (uuid : String)
    (first : List Message → Option Choice)
    (followup : List Message → Option (Option String))
    (store : List Order) (history : List Message) (user_message : String) :
    Except String TurnOut :=
  let h₁ := ensure_system history ++ [.mk "user" (some user_message) none none none none]
  match first h₁ with
  | none => .error "UpstreamError"
  | some choice => handle uuid followup store choice h₁

/-! ## `app/services/history_manager.py` — History Compactor -/

/-- A message at which the anchor scan stops: a prior summary
(`meta.get("summary_of") is not None`) or the system message. -/
def isAnchor (m : Message) : Bool :=
  m.summary_of.isSome || m.role == "system"

/-- The anchor index `last_idx`: the code scans from the end and keeps
the default `0` when no summary or system message exists. -/
def lastIdx (history : List Message) : Nat :=
  match (List.range history.length).reverse.find? (fun i =>
    match history.get? i with
    | some m => isAnchor m
    | none => false) with
  | some i => i
  | none => 0

/-- First trimming loop: `while old and old[-1].get("role") == "tool":
old.pop()`. -/
def dropTrailingTool (l : List Message) : List Message :=
  (l.reverse.dropWhile (fun m => m.role == "tool")).reverse

/-- Second trimming loop: `while old and old[-1].get("role") ==
"assistant" and "tool_calls" in old[-1]: old.pop()` (the key-presence
test is `tool_calls.isSome`; every assistant message this program
writes carries the key exactly when it recorded tool calls). -/
def dropTrailingAsstTC (l : List Message) : List Message :=
  (l.reverse.dropWhile (fun m => m.role == "assistant" && m.tool_calls.isSome)).reverse

/-- Model of `summarize_messages`: an empty span short-circuits to `""` without
calling the summarization completion; otherwise the oracle models the
completion (`none` = the call raised). -/
def summarize_messages (oracle : List Message → Option String)
    (messages : List Message) : Option String :=
  if messages.isEmpty then some "" else oracle messages

/-- Outcome of one `trim_history` invocation: `skipped` when a size
guard exits before summarizing, `abandoned` when the summarization
raised (logged, nothing saved), `saved h` when the new history `h` was
persisted. -/
inductive TrimResult where
  | skipped : TrimResult
  | abandoned : TrimResult
  | saved : List Message → TrimResult

/-- Model of `trim_history`: guard on total size, locate the anchor, guard on
the unsummarized length, take the oldest `chunk` messages, trim their
tail with the two loops, summarize, and persist
`history[: last_idx + 1] + [summary_msg] + unsummarized[chunk :]`. -/
def trim_history (oracle : List Message → Option String)
    (history : List Message) (window chunk : Nat) : TrimResult :=
  if history.length ≤ window + chunk then .skipped
  else
    let last_idx := lastIdx history
    let unsummarized := history.drop (last_idx + 1)
    if unsummarized.length ≤ window + chunk then .skipped
    else
      let old := dropTrailingAsstTC (dropTrailingTool (unsummarized.take chunk))
      match summarize_messages oracle old with
      | none => .abandoned
      | some summary =>
        .saved (history.take (last_idx + 1) ++
          [.mk "assistant" (some summary) none none none (some old)] ++
          unsummarized.drop chunk)

/-! ## Concrete fixtures

A store seeded with one demo-shaped order, and a few message shapes,
reused by the witnesses and counterexamples below. -/

/-- A stored order shaped like the seeded demo order `1001`. -/
def o1001 : Order :=
  [("order_id", .str "1001"), ("customer", .str "Ahmed Ali"),
   ("status", .str "processing"), ("created_at", .str "2025-06-07"),
   ("total_price", .num 450),
   ("items", .arr [.obj [("sku", .str "SKU1"), ("qty", .num 1), ("price", .num 450)]])]

/-- A plain user message. -/
def msgU (s : String) : Message := .mk "user" (some s) none none none none

/-- A plain assistant message. -/
def msgA (s : String) : Message := .mk "assistant" (some s) none none none none

/-- An assistant message recording one tool call (the shape `handle`
appends before dispatching). -/
def msgATC (s : String) : Message :=
  .mk "assistant" (some s) (some [⟨"id_" ++ s, "get_order", "\x7b\x7d"⟩]) none none none

/-- A tool-result message (the shape `handle` appends after
dispatching). -/
def msgT (s : String) : Message :=
  .mk "tool" (some s) none (some ("id_" ++ s)) (some "get_order") none

/-- Well-formed item objects built from `(sku, qty, price)` triples. -/
def itemObjs (items : List (String × ℚ × ℚ)) : List JVal :=
  items.map (fun i => .obj [("sku", .str i.1), ("qty", .num i.2.1), ("price", .num i.2.2)])

/-- The specified total: the sum over the items of `qty · price`. -/
def itemsTotal (items : List (String × ℚ × ℚ)) : ℚ :=
  (items.map (fun i => i.2.1 * i.2.2)).sum

/-- A list of `n` user messages, none of which is an anchor. -/
def nonAnchorMsgs (n : Nat) : List Message :=
  (List.range n).map (fun i => msgU (toString i))

/-- A first tool call requesting the stored order `1001`. -/
def tcA : ToolCall := ⟨"call1", "get_order", "\x7b\"order_id\": \"1001\"\x7d"⟩

/-- A second tool call requested in the same model response. -/
def tcB : ToolCall := ⟨"call2", "get_order", "\x7b\"order_id\": \"1001\"\x7d"⟩

/-- The structural invariant of §3 of the spec, specialised to what
compaction must preserve: a role=tool message never appears without its
immediately preceding carrier (an assistant message bearing
`tool_calls`, or a preceding tool message of the same batch). -/
def noOrphanTool (l : List Message) : Bool :=
  (List.range l.length).all (fun i =>
    match l.get? i with
    | some m =>
      if m.role == "tool" then
        match (if i = 0 then none else l.get? (i - 1)) with
        | some prev =>
          (prev.role == "assistant" && prev.tool_calls.isSome) ||
            prev.role == "tool"
        | none => false
      else true
    | none => true)

/-- Pre-compaction history for C1: anchor, eight plain user messages,
an assistant tool-call message `m8` with its tool result `m9` at the
chunk boundary, then six later messages. -/
def hC1 : List Message :=
  systemMessage ::
    ((List.range 8).map (fun i => msgU (toString i)) ++
     [msgATC "m8", msgT "m9"] ++
     (List.range 6).map (fun i => msgA ("r" ++ toString i)))

/-- What compaction stores for `hC1`: the two messages trimmed off the
span's end (`m8`, `m9`) appear neither in the kept tail nor in
`meta.summary_of`. -/
def savedC1 : List Message :=
  systemMessage ::
    .mk "assistant" (some "SUM") none none none
      (some ((List.range 8).map (fun i => msgU (toString i)))) ::
    (List.range 6).map (fun i => msgA ("r" ++ toString i))

/-- Pre-compaction history for C2: anchor, nine plain user messages,
an assistant tool-call message `m9` as the last span element, its tool
result `m10` just outside the span, then five later messages. -/
def hC2 : List Message :=
  systemMessage ::
    ((List.range 9).map (fun i => msgU (toString i)) ++
     [msgATC "m9", msgT "m10"] ++
     (List.range 5).map (fun i => msgA ("r" ++ toString i)))

/-- What compaction stores for `hC2`: the tool result `m10` survives
immediately after the summary message while its matching assistant
tool-call message `m9` has been deleted. -/
def savedC2 : List Message :=
  systemMessage ::
    .mk "assistant" (some "SUM") none none none
      (some ((List.range 9).map (fun i => msgU (toString i)))) ::
    msgT "m10" ::
    (List.range 5).map (fun i => msgA ("r" ++ toString i))

/-! ## The claims -/

/-- Claim C10 — when the first completion finishes as plain text but its
content is `None` or empty, the engine appends and returns the literal
placeholder `"(no content)"`. -/
theorem C10_placeholder_reply (uuid : String)
    (followup : List Message → Option (Option String)) (store : List Order)
    (choice : Choice) (history : List Message)
    (hfr : (["function_call", "tool_calls"].contains choice.finish_reason) = false)
    (hc : choice.content = none ∨ choice.content = some "") :
    handle uuid followup store choice history =
      .ok ⟨some "(no content)",
        history ++ [.mk "assistant" (some "(no content)") none none none none],
        store⟩ := by
  unfold handle
  rw [hfr]
  rcases hc with hc | hc <;> simp [hc]

/-- Witness for C10: a `stop`-finished choice with `None` content on an
empty history yields the placeholder reply. -/
theorem C10_placeholder_reply_witness :
    handle "u" (fun _ => some (some "x")) [o1001]
      ⟨"stop", none, none, none⟩ [msgU "hi"] =
      .ok ⟨some "(no content)",
        [msgU "hi", .mk "assistant" (some "(no content)") none none none none],
        [o1001]⟩ :=
  C10_placeholder_reply "u" (fun _ => some (some "x")) [o1001]
    ⟨"stop", none, none, none⟩ [msgU "hi"] (by decide) (Or.inl rfl)

/-- Claim C3, counterexample — a full turn in which the model requests
`get_order` for the absent id `"404"` does not feed an error payload
back and does not return text: it propagates
`ValueError("Order not found")` out of the turn. -/
theorem C3_counterexample :
    process_user_message "u"
      (fun _ => some ⟨"tool_calls", none,
        some [⟨"call1", "get_order", "\x7b\"order_id\": \"404\"\x7d"⟩], none⟩)
      (fun _ => some (some "done"))
      [o1001] [] "where is my order?" =
      .error "ValueError: Order not found" := by rfl

/-- Claim C3, amended — for every turn in which the model requests
`get_order` with an order id absent from the store, `_run_tool` raises
`ValueError("Order not found")` and the exception propagates out of
`_handle`: no tool result is fed back and no assistant text is
produced. -/
theorem C3_amended_get_order_missing_raises (uuid : String)
    (followup : List Message → Option (Option String)) (store : List Order)
    (choice : Choice) (history : List Message) (tc : ToolCall)
    (args oid : JVal)
    (hfr : choice.finish_reason = "tool_calls")
    (htc : choice.tool_calls = some [tc])
    (hname : tc.name = "get_order")
    (hparse : json_loads tc.arguments = .ok args)
    (hoid : argGet args "order_id" = .ok oid)
    (hmiss : get_order store oid = none) :
    handle uuid followup store choice history =
      .error "ValueError: Order not found" := by
  simp [handle, hfr, htc, hparse, run_tool, hname, hoid, hmiss, bind, Except.bind]

/-- Witness for the amended C3 at the concrete missing id `"404"`. -/
theorem C3_amended_get_order_missing_raises_witness :
    handle "u" (fun _ => some (some "done")) [o1001]
      ⟨"tool_calls", none,
        some [⟨"call1", "get_order", "\x7b\"order_id\": \"404\"\x7d"⟩], none⟩
      [msgU "hi"] =
      .error "ValueError: Order not found" :=
  C3_amended_get_order_missing_raises "u" (fun _ => some (some "done")) [o1001]
    ⟨"tool_calls", none,
      some [⟨"call1", "get_order", "\x7b\"order_id\": \"404\"\x7d"⟩], none⟩
    [msgU "hi"] ⟨"call1", "get_order", "\x7b\"order_id\": \"404\"\x7d"⟩
    (.obj [("order_id", .str "404")]) (.str "404")
    rfl rfl rfl (by rfl) (by rfl) (by rfl)

/-- Claim C4, counterexample — a turn whose requested tool call carries
the non-JSON argument payload `"oops"` propagates the decode error out
of the turn instead of feeding an error-shaped tool result back. -/
theorem C4_counterexample :
    process_user_message "u"
      (fun _ => some ⟨"tool_calls", none,
        some [⟨"call1", "get_order", "oops"⟩], none⟩)
      (fun _ => some (some "done"))
      [o1001] [] "hello" =
      .error "JSONDecodeError" := by rfl

/-- Claim C4, amended — for every turn in which the model requests a
tool call whose argument payload is not valid JSON, `json.loads`
raises and the exception propagates uncaught out of `_handle`: the
turn crashes and no error-shaped tool result is appended. -/
theorem C4_amended_bad_json_raises (uuid : String)
    (followup : List Message → Option (Option String)) (store : List Order)
    (choice : Choice) (history : List Message) (tc : ToolCall)
    (rest : List ToolCall) (e : String)
    (hfr : choice.finish_reason = "tool_calls")
    (htc : choice.tool_calls = some (tc :: rest))
    (hparse : json_loads tc.arguments = .error e) :
    handle uuid followup store choice history = .error e := by
  simp [handle, hfr, htc, hparse]

/-- Witness for the amended C4 at the concrete payload `"oops"`. -/
theorem C4_amended_bad_json_raises_witness :
    handle "u" (fun _ => some (some "done")) [o1001]
      ⟨"tool_calls", none, some [⟨"call1", "get_order", "oops"⟩], none⟩
      [msgU "hi"] =
      .error "JSONDecodeError" :=
  C4_amended_bad_json_raises "u" (fun _ => some (some "done")) [o1001]
    ⟨"tool_calls", none, some [⟨"call1", "get_order", "oops"⟩], none⟩
    [msgU "hi"] ⟨"call1", "get_order", "oops"⟩ [] "JSONDecodeError"
    rfl rfl (by rfl)

/-! ### Association-list and store lemmas used for C5 and C8 -/

/-- Lemma: `find?` ignores a mapped rewrite that fixes matching elements and
does not create new matches. -/
theorem find?_map_fix {α : Type} (p : α → Bool) (f : α → α) (l : List α)
    (hfix : ∀ x, p x = true → f x = x) (hsame : ∀ x, p (f x) = p x) :
    List.find? p (l.map f) = List.find? p l := by
  induction l with
  | nil => rfl
  | cons a l ih =>
    by_cases hpa : p a = true
    · simp [List.find?, hsame, hpa, hfix a hpa]
    · simp only [Bool.not_eq_true] at hpa
      simp [List.find?, hsame, hpa, ih]

/-- Lemma: `find?` commutes with updating exactly the matching elements, when
the update preserves matching. -/
theorem find?_map_update {α : Type} (p : α → Bool) (g : α → α) (l : List α)
    (hpres : ∀ x, p x = true → p (g x) = true) :
    List.find? p (l.map (fun x => if p x then g x else x)) =
      (List.find? p l).map g := by
  induction l with
  | nil => rfl
  | cons a l ih =>
    by_cases hpa : p a = true
    · simp [List.find?, hpa, hpres a hpa]
    · simp only [Bool.not_eq_true] at hpa
      simp [List.find?, hpa, ih]

/-- Setting one key leaves lookups of a different key unchanged. -/
theorem jget_dictSet_ne (o : Order) (k k' : String) (v : JVal)
    (hk : (k == k') = false) :
    jget (dictSet o k v) k' = jget o k' := by
  have hne : k ≠ k' := by simpa using hk
  unfold dictSet
  split
  · unfold jget
    rw [find?_map_fix]
    · intro x hx
      have hx' : x.1 = k' := by simpa using hx
      simp [hx', beq_eq_false_iff_ne.mpr (Ne.symm hne)]
    · intro x
      by_cases hxk : x.1 = k
      · simp [hxk, hk]
      · simp [beq_eq_false_iff_ne.mpr hxk]
  · unfold jget
    rw [List.find?_append]
    simp [hk]

/-- Merging the item-update fields never touches `order_id`. -/
theorem jget_orderId_after_items_merge (o : Order) (a b : JVal) :
    jget (dictMerge o [("items", a), ("total_price", b)]) "order_id" =
      jget o "order_id" := by
  show jget (dictSet (dictSet o "items" a) "total_price" b) "order_id" = _
  rw [jget_dictSet_ne _ _ _ _ (by decide), jget_dictSet_ne _ _ _ _ (by decide)]

/-- So the item-update merge preserves which documents match the id. -/
theorem matchesId_after_items_merge (idv : JVal) (o : Order) (a b : JVal) :
    matchesId idv (dictMerge o [("items", a), ("total_price", b)]) =
      matchesId idv o := by
  unfold matchesId
  rw [jget_orderId_after_items_merge]

/-- Lemma: `update_order` with the item-update fields, on a store where the id
is found: it merges into the matching documents and returns the merged
first match. -/
theorem update_order_items_merge (store : List Order) (oid : JVal) (o : Order)
    (a b : JVal) (h : get_order store oid = some o) :
    update_order store oid [("items", a), ("total_price", b)] =
      (some (dictMerge o [("items", a), ("total_price", b)]),
       store.map (fun r =>
         if matchesId oid r then dictMerge r [("items", a), ("total_price", b)]
         else r)) := by
  have hany : store.any (matchesId oid) = true :=
    List.any_eq_true.mpr ⟨o, List.mem_of_find?_eq_some h, List.find?_some h⟩
  unfold update_order
  rw [if_pos hany]
  unfold get_order at h
  show (List.find? (matchesId oid)
      (store.map (fun r =>
        if matchesId oid r then dictMerge r [("items", a), ("total_price", b)] else r)),
    store.map (fun r =>
      if matchesId oid r then dictMerge r [("items", a), ("total_price", b)] else r)) = _
  rw [find?_map_update _ _ _
    (fun x hx => by rw [matchesId_after_items_merge]; exact hx), h]
  rfl

/-- On well-formed item objects the dispatcher's sum computes
`itemsTotal`. -/
theorem sumItems_itemObjs (items : List (String × ℚ × ℚ)) :
    sumItems (itemObjs items) = .ok (itemsTotal items) := by
  induction items with
  | nil => rfl
  | cons i is ih =>
    simp [itemObjs, itemsTotal, sumItems, argGet, jget, pyMul, JVal.toNum,
      bind, Except.bind] at ih ⊢
    simp [ih]

/-- Claim C5 — `update_order_items` on an existing order recomputes
`total_price` as exactly `Σ qty·price` over the new items and merges
the items and the new total into the stored order; on an absent order
it returns the structured `not_found` result instead of raising. -/
theorem C5_update_order_items (uuid : String) (store : List Order)
    (oid : JVal) (items : List (String × ℚ × ℚ)) :
    (∀ o, get_order store oid = some o →
      run_tool uuid store "update_order_items"
          (.obj [("order_id", oid), ("items", .arr (itemObjs items))]) =
        .ok (.obj [("order", .obj (dictMerge o
              [("items", .arr (itemObjs items)),
               ("total_price", .num (itemsTotal items))]))],
          store.map (fun r =>
            if matchesId oid r then
              dictMerge r [("items", .arr (itemObjs items)),
                ("total_price", .num (itemsTotal items))]
            else r))) ∧
    (get_order store oid = none →
      run_tool uuid store "update_order_items"
          (.obj [("order_id", oid), ("items", .arr (itemObjs items))]) =
        .ok (.obj [("error", .str "not_found")], store)) := by
  constructor
  · intro o h
    simp [run_tool, argGet, jget, h, sumItems_itemObjs,
      update_order_items_merge store oid o _ _ h, bind, Except.bind]
  · intro h
    simp [run_tool, argGet, jget, h, bind, Except.bind]

/-- Witness for C5 at the spec's example: items
`[{qty:2, price:20}, {qty:1, price:80}]` yield total `120` on the
stored order `1001`, and the absent id `"404"` yields `not_found`. -/
theorem C5_update_order_items_witness :
    run_tool "u" [o1001] "update_order_items"
        (.obj [("order_id", .str "1001"),
               ("items", .arr (itemObjs [("a", 2, 20), ("b", 1, 80)]))]) =
      .ok (.obj [("order", .obj (dictMerge o1001
            [("items", .arr (itemObjs [("a", 2, 20), ("b", 1, 80)])),
             ("total_price", .num 120)]))],
        [dictMerge o1001
            [("items", .arr (itemObjs [("a", 2, 20), ("b", 1, 80)])),
             ("total_price", .num 120)]]) ∧
    run_tool "u" [o1001] "update_order_items"
        (.obj [("order_id", .str "404"),
               ("items", .arr (itemObjs [("a", 2, 20), ("b", 1, 80)]))]) =
      .ok (.obj [("error", .str "not_found")], [o1001]) := by
  constructor
  · exact (C5_update_order_items "u" [o1001] (.str "1001") [("a", 2, 20), ("b", 1, 80)]).1
      o1001 rfl
  · exact (C5_update_order_items "u" [o1001] (.str "404") [("a", 2, 20), ("b", 1, 80)]).2
      rfl

/-- Claim C6, counterexample — a `>` filter whose value's type mismatches
the stored field (numeric `5` against the string `"processing"`) makes
`search_orders` raise `TypeError` instead of excluding the record. -/
theorem C6_counterexample :
    search_orders [o1001] [⟨"status", ">", .num 5⟩] = .error "TypeError" := by rfl

/-- Claim C6, amended — for `>`/`<` filters, a record whose filtered
field is missing or null is excluded from the results without an
exception; but a type mismatch between the stored value and the filter
value raises `TypeError` rather than excluding the record. -/
theorem C6_missing_null_excluded (o : Order) (field : String) (v : JVal)
    (op : String) (hop : op = ">" ∨ op = "<")
    (hfield : jget o field = none ∨ jget o field = some .null) :
    search_orders [o] [⟨field, op, v⟩] = .ok [] := by
  rcases hop with h | h <;> rcases hfield with hf | hf <;>
    simp [search_orders, searchGo, evalFilters, matchFilter, h, hf,
      bind, Except.bind, pure, Except.pure]

/-- Witness for the amended C6: a missing field and a null field under
both `>` and `<` are excluded without an exception. -/
theorem C6_missing_null_excluded_witness :
    search_orders [o1001] [⟨"shipped_at", ">", .num 5⟩] = .ok [] ∧
    search_orders [[("order_id", .str "7"), ("discount", .null)]]
      [⟨"discount", "<", .num 5⟩] = .ok [] := by
  constructor
  · exact C6_missing_null_excluded o1001 "shipped_at" (.num 5) ">"
      (Or.inl rfl) (Or.inl rfl)
  · exact C6_missing_null_excluded [("order_id", .str "7"), ("discount", .null)]
      "discount" (.num 5) "<" (Or.inr rfl) (Or.inr rfl)

/-- Claim C8, counterexample — `create_order` with an `order_id` already
present inserts anyway: the store ends up holding two records with
`order_id = "1001"`. -/
theorem C8_counterexample :
    ((create_order "uuid9" [o1001]
        [("order_id", .str "1001"), ("customer", .str "Eve")]).2.countP
      (matchesId (.str "1001"))) = 2 := by rfl

/-- Claim C8, amended — `create_order` inserts unconditionally: whenever
the incoming record carries an `order_id` that some stored record
already has, the store afterwards holds at least two records with that
id (uniqueness is not enforced). -/
theorem C8_duplicate_order_id (uuid : String) (store : List Order)
    (order_data : Order) (idv : JVal)
    (hkey : hasKey order_data "order_id" = true)
    (hmatch : matchesId idv order_data = true)
    (hpresent : 1 ≤ store.countP (matchesId idv)) :
    2 ≤ (create_order uuid store order_data).2.countP
      (matchesId idv) := by
  unfold create_order
  rw [if_pos hkey]
  rw [List.countP_append]
  simp [List.countP_cons, hmatch]
  exact List.countP_pos_iff.mp hpresent

/-- Witness for the amended C8 at the concrete duplicate id `"1001"`. -/
theorem C8_duplicate_order_id_witness :
    2 ≤ ((create_order "uuid9" [o1001]
        [("order_id", .str "1001"), ("customer", .str "Eve")]).2.countP
      (matchesId (.str "1001"))) :=
  C8_duplicate_order_id "uuid9" [o1001]
    [("order_id", .str "1001"), ("customer", .str "Eve")] (.str "1001")
    (by rfl) (by rfl) (by rfl)

/-- Claim C9 — compaction no-op boundary: with exactly `window + chunk`
(15) messages after the anchor index the stored history is left
untouched (a guard exits before summarizing); with `window + chunk + 1`
(16) messages after the anchor a summarization is attempted, whatever
the summarizer does. -/
theorem C9_compaction_boundary (oracle : List Message → Option String)
    (history : List Message) :
    (history.length = lastIdx history + 1 + 15 →
      trim_history oracle history 5 10 = .skipped) ∧
    (history.length = lastIdx history + 1 + 16 →
      trim_history oracle history 5 10 ≠ .skipped) := by
  constructor
  · intro h
    have h2 : (history.drop (lastIdx history + 1)).length ≤ 5 + 10 := by
      rw [List.length_drop, h]
      omega
    simp only [trim_history]
    split
    · rfl
    · rfl
  · intro h
    have h1 : ¬ history.length ≤ 5 + 10 := by omega
    have h2 : ¬ (history.drop (lastIdx history + 1)).length ≤ 5 + 10 := by
      rw [List.length_drop, h]
      omega
    simp only [trim_history]
    rw [if_neg h1, if_neg h2]
    cases summarize_messages oracle
        (dropTrailingAsstTC (dropTrailingTool ((history.drop (lastIdx history + 1)).take 10))) with
    | none => simp
    | some s => simp

/-- Witness for C9: a system prompt followed by 15 plain messages is
left untouched; with 16 the compaction proceeds past the guards. -/
theorem C9_compaction_boundary_witness :
    trim_history (fun _ => some "S") (systemMessage :: nonAnchorMsgs 15) 5 10 =
      .skipped ∧
    trim_history (fun _ => some "S") (systemMessage :: nonAnchorMsgs 16) 5 10 ≠
      .skipped :=
  ⟨(C9_compaction_boundary (fun _ => some "S") (systemMessage :: nonAnchorMsgs 15)).1
      (by rfl),
   (C9_compaction_boundary (fun _ => some "S") (systemMessage :: nonAnchorMsgs 16)).2
      (by rfl)⟩

/-- Claim C7, counterexample — when the model requests two tool calls in
one response, the persisted history records both descriptors on the
assistant message but appends only one role=tool message (the first
call's), so the assistant message is not followed by one tool message
per recorded call. -/
theorem C7_counterexample :
    (handle "u" (fun _ => some (some "done")) [o1001]
        ⟨"tool_calls", none, some [tcA, tcB], none⟩ []).map
      (fun out => (out.history.map Message.role,
        out.history.map Message.tool_calls)) =
      .ok (["assistant", "tool", "assistant"],
        [some [tcA, tcB], none, none]) := by rfl

/-- Claim C7, amended — on every successful tool turn the engine appends
the assistant message recording all requested descriptors, then exactly
one role=tool message (the first call's result), then the follow-up
assistant message — so the per-call pairing invariant holds exactly
when the model requested a single call. -/
theorem C7_single_tool_message (uuid : String)
    (followup : List Message → Option (Option String)) (store : List Order)
    (choice : Choice) (history : List Message) (tc : ToolCall)
    (rest : List ToolCall) (args result : JVal) (store' : List Order)
    (c : Option String)
    (hfr : choice.finish_reason = "tool_calls")
    (htc : choice.tool_calls = some (tc :: rest))
    (hparse : json_loads tc.arguments = .ok args)
    (hrun : run_tool uuid store tc.name args = .ok (result, store'))
    (hfol : followup (history ++
      [.mk "assistant" (some (choice.content.getD "")) (some (tc :: rest)) none none none,
       .mk "tool" (some (json_dumps result)) none (some tc.id) (some tc.name) none]) =
      some c) :
    handle uuid followup store choice history =
      .ok ⟨c, history ++
        [.mk "assistant" (some (choice.content.getD "")) (some (tc :: rest)) none none none,
         .mk "tool" (some (json_dumps result)) none (some tc.id) (some tc.name) none,
         .mk "assistant" c none none none none], store'⟩ := by
  simp [handle, hfr, htc, hparse, hrun, hfol]

/-- Witness for the amended C7: the two-call response appends exactly
one tool message for the first call. -/
theorem C7_single_tool_message_witness :
    handle "u" (fun _ => some (some "done")) [o1001]
      ⟨"tool_calls", none, some [tcA, tcB], none⟩ [] =
      .ok ⟨some "done",
        [.mk "assistant" (some "") (some [tcA, tcB]) none none none,
         .mk "tool" (some (json_dumps (.obj [("order", .obj o1001)]))) none
           (some "call1") (some "get_order") none,
         .mk "assistant" (some "done") none none none none], [o1001]⟩ :=
  C7_single_tool_message "u" (fun _ => some (some "done")) [o1001]
    ⟨"tool_calls", none, some [tcA, tcB], none⟩ [] tcA [tcB]
    (.obj [("order_id", .str "1001")]) (.obj [("order", .obj o1001)]) [o1001]
    (some "done") rfl rfl (by rfl) (by rfl) rfl

/-- Claim C1 — the claim fails on the code: compaction of `hC1` persists
`savedC1`, in which the tool-call pair `m8`/`m9` trimmed off the span's
end has been deleted outright — it is neither retained in the stored
history nor part of the summarized span held in `meta.summary_of`. -/
theorem C1_trimmed_messages_deleted :
    trim_history (fun _ => some "SUM") hC1 5 10 = .saved savedC1 ∧
    hC1.any (fun m => m.content == some "m8") = true ∧
    hC1.any (fun m => m.content == some "m9") = true ∧
    savedC1.any (fun m => m.content == some "m8") = false ∧
    savedC1.any (fun m => m.content == some "m9") = false ∧
    (savedC1.map Message.summary_of).any
      (fun s => (s.getD []).any (fun m => m.content == some "m8" ||
        m.content == some "m9")) = false := by
  refine ⟨by rfl, by rfl, by rfl, by rfl, by rfl, by rfl⟩

/-- Claim C2 — the claim fails on the code: `hC2` satisfies the
tool-pairing invariant, yet compaction persists `savedC2`, in which the
role=tool message `m10` immediately follows the compaction boundary
with its matching assistant tool-call message deleted. -/
theorem C2_orphaned_tool_message :
    noOrphanTool hC2 = true ∧
    trim_history (fun _ => some "SUM") hC2 5 10 = .saved savedC2 ∧
    noOrphanTool savedC2 = false := by
  refine ⟨by rfl, by rfl, by rfl⟩

end Spec2Proof
